import Mathlib

/-!
Shallow embedding of `src/plotters/src/coord/ranged2d/geo.rs`: the geographic
coordinate layer of the plotters fork. The file models the `Mercator`
projection engine (configuration, two-phase build, `bbox`, `map`), the error
taxonomy `CoordError`, and the composed coordinate system `LatLonCoord` with
its `new` and `translate` operations.

Modelling conventions:
- Rust `f64` is modelled as `ℚ`. No projection arithmetic happens in this
  file's source: coordinates are only carried around, compared, and printed,
  so exact rationals are a faithful carrier.
- The external `proj` crate is a collaborator: `Proj` is a transformer whose
  forward conversion `convert` is an arbitrary function
  `Range → Except ProjError Range`, and the external constructor `Proj::new`
  is passed to `Mercator.build` as an explicit argument
  `projNew : String → Option Proj` (`none` models a constructor failure,
  which the Rust code `unwrap`s into a panic).
- A Rust panic (`unwrap` on `None`/`Err`) is modelled as the `none` value of
  an `Option`-typed result: the operation produces no value and no
  recoverable error.
-/

/-- Rust `f64`, modelled as exact rationals (no projection arithmetic occurs
in the embedded source, values are only stored, compared and printed). -/
abbrev f64 := ℚ

/-- The source's `type Range = (f64, f64);`. -/
abbrev Range := f64 × f64

/-- Error type of the external `proj` crate (`ProjError`); its content is
irrelevant to this layer, which only wraps and propagates it. -/
structure ProjError where
  msg : String
deriving DecidableEq

/-- The external transformer handle (`proj::Proj`): a forward conversion
`convert(lon, lat) -> Result<(x, y), ProjError>`. -/
structure Proj where
  convert : Range → Except ProjError Range

/-- The source's `CoordError`: `Uninital` (projection used before build) and
`ProjError { source }` (wrapping an underlying engine error, via `#[from]`). -/
inductive CoordError where
  | Uninital : CoordError
  | ProjError (source : ProjError) : CoordError

/-- Rust `f64` `Display` restricted to the values this code prints: integral
values print with no fractional part (the f64 zero prints as `"0"`). -/
def f64str (v : f64) : String :=
  if v.den = 1 then toString v.num else toString v

/-- Rust `Vec<String>::join(" ")`. -/
def joinSpace : List String → String
  | [] => ""
  | [s] => s
  | s :: rest => s ++ " " ++ joinSpace rest

/-- The source's `proj_string`: formats each pair as `+option=value` and
joins the results with single spaces. -/
def proj_string (vs : List (String × String)) : String :=
  joinSpace (vs.map (fun p => "+" ++ p.1 ++ "=" ++ p.2))

/-- The source's `Mercator` engine: six configuration fields and the
lazily-built transformer handle `proj_marker`. -/
structure Mercator where
  central_lon : f64
  min_latitude : f64
  max_latitude : f64
  false_easting : f64
  false_northing : f64
  latitude_true_scale : f64
  proj_marker : Option Proj

/-- `Mercator::new`: default configuration, unbuilt handle. -/
def Mercator.new : Mercator :=
  { central_lon := 0
    min_latitude := -80
    max_latitude := 84
    false_easting := 0
    false_northing := 0
    latitude_true_scale := 0
    proj_marker := none }

/-- The projection-definition string `Mercator::build` assembles: the
`input` vector of `build`, rendered through `proj_string`, with the three
numeric fields printed by `to_string` (modelled by `f64str`). -/
def Mercator.buildString (m : Mercator) : String :=
  proj_string
    [("proj", "merc"),
     ("lon_0", f64str m.central_lon),
     ("x_0", f64str m.false_easting),
     ("y_0", f64str m.false_northing),
     ("units", "m")]

/-- `Mercator::build`: passes the assembled definition string to the external
constructor (`Proj::new`, modelled by the argument `projNew`) and stores the
resulting handle in `proj_marker`. The source `unwrap`s the constructor
result, so a constructor failure is a panic, modelled as `none`. -/
def Mercator.build (projNew : String → Option Proj) (m : Mercator) : Option Mercator :=
  match projNew (Mercator.buildString m) with
  | some p => some { m with proj_marker := some p }
  | none => none

/-- `<Mercator as ProjectionS>::bbox`: fails with `Uninital` when the handle
is unset; otherwise resolves missing ranges to the defaults, converts the
bottom-left and top-right corners, propagating a conversion error wrapped as
`CoordError::ProjError` (the `?` operator with `#[from]`), and returns
`((bl.0, rt.0), (bl.1, rt.1))`. -/
def Mercator.bbox (m : Mercator) (x_ranged y_ranged : Option (f64 × f64)) :
    Except CoordError (Range × Range) :=
  match m.proj_marker with
  | none => .error CoordError.Uninital
  | some t =>
    let xmm := x_ranged.getD (-180, 180)
    let ymm := y_ranged.getD (m.min_latitude, m.max_latitude)
    match t.convert (xmm.1, ymm.1) with
    | .error e => .error (CoordError.ProjError e)
    | .ok bl =>
      match t.convert (xmm.2, ymm.2) with
      | .error e => .error (CoordError.ProjError e)
      | .ok rt => .ok ((bl.1, rt.1), (bl.2, rt.2))

/-- `<Mercator as ProjectionS>::map`: `unwrap`s the handle and the conversion
result. Both `unwrap`s panic on failure, modelled here as `none`; a returned
`some r` is the value Rust returns. -/
def Mercator.map (m : Mercator) (v : Range) : Option Range :=
  match m.proj_marker with
  | none => none
  | some t =>
    match t.convert v with
    | .error _ => none
    | .ok r => some r

/-- Rust `std::ops::Range<i32>` as used for the pixel extent. -/
structure SRangeI where
  start : Int
  stop : Int

/-- Rust `std::ops::Range<f64>` as passed to `Cartesian2d::new`. -/
structure SRangeQ where
  start : f64
  stop : f64

/-- The generic 2-D Cartesian coordinate system
`Cartesian2d<RangedCoordf64, RangedCoordf64>`, an external collaborator of
this layer: it stores the two logical ranges and the pixel extent. -/
structure Cartesian2d where
  logic_x : SRangeQ
  logic_y : SRangeQ
  back_x : SRangeI
  back_y : SRangeI

/-- `Cartesian2d::new(x_range, y_range, actual)`. -/
def Cartesian2d.new (lx ly : SRangeQ) (actual : SRangeI × SRangeI) : Cartesian2d :=
  { logic_x := lx, logic_y := ly, back_x := actual.1, back_y := actual.2 }

/-- Modelled from the spec: the generic Cartesian coordinate system's
per-axis mapping lives outside this source file; the spec describes it as a
linear mapping from a numeric range onto a pixel range (`Cartesian mapping: a
linear (or otherwise monotonic) mapping from a numeric range pair to a
pixel-range pair`). -/
def linmap (logic : SRangeQ) (back : SRangeI) (v : f64) : Int :=
  if logic.stop = logic.start then back.start
  else back.start + Rat.floor ((v - logic.start) / (logic.stop - logic.start) * ((back.stop : ℚ) - (back.start : ℚ)))

/-- Modelled from the spec: `Cartesian2d::translate`, the external
collaborator mapping a projected point to a backend pixel coordinate, one
linear mapping per axis. -/
def Cartesian2d.translate (c : Cartesian2d) (p : Range) : Int × Int :=
  (linmap c.logic_x c.back_x p.1, linmap c.logic_y c.back_y p.2)

/-- The trait `ProjectionS`, over which `LatLonCoord` is generic: `bbox` is
fallible, `map` returns a bare value in Rust but may panic, so its model
returns an `Option` (`none` = panic). -/
structure ProjectionS (T : Type) where
  bbox : T → Option (f64 × f64) → Option (f64 × f64) → Except CoordError (Range × Range)
  map : T → Range → Option Range

/-- The `ProjectionS` implementation of `Mercator`. -/
def mercatorS : ProjectionS Mercator :=
  { bbox := Mercator.bbox, map := Mercator.map }

/-- The source's `LatLonCoord<T>`: the public optional geographic ranges,
the projected ranges `x`/`y`, the owned Cartesian mapping and the owned
projection. -/
structure LatLonCoord (T : Type) where
  lon : Option Range
  lat : Option Range
  x : Range
  y : Range
  cartesian : Cartesian2d
  proj : T

/-- `LatLonCoord::new`: calls `proj.bbox(lon, lat).unwrap()` — a bbox failure
panics (modelled as `none`, fatal to the construction) — then stores the
original optional ranges, the projected ranges, and a Cartesian mapping from
the projected ranges onto the supplied pixel ranges. -/
def LatLonCoord.new {T : Type} (S : ProjectionS T) (lon lat : Option Range)
    (actual : SRangeI × SRangeI) (proj : T) : Option (LatLonCoord T) :=
  match S.bbox proj lon lat with
  | .error _ => none
  | .ok b =>
    some
      { lon := lon
        lat := lat
        x := b.1
        y := b.2
        cartesian := Cartesian2d.new ⟨b.1.1, b.1.2⟩ ⟨b.2.1, b.2.2⟩ actual
        proj := proj }

/-- `<LatLonCoord<T> as CoordTranslate>::translate`: forward-projects through
the owned projection's `map`, then maps the projected point through the
stored Cartesian mapping. A panic inside `map` propagates (`none`). -/
def LatLonCoord.translate {T : Type} (S : ProjectionS T) (c : LatLonCoord T)
    (v : Range) : Option (Int × Int) :=
  (S.map c.proj v).map (fun p => c.cartesian.translate p)

/-- A transformer whose conversion succeeds on every input, returning the
input unchanged; used to instantiate theorems at concrete engines. -/
def idProj : Proj := ⟨fun v => .ok v⟩

/-- A transformer whose conversion fails on every input. -/
def failProj : Proj := ⟨fun _ => .error ⟨"conversion failure"⟩⟩

/-- A built default Mercator engine carrying `idProj`. -/
def builtMercator : Mercator := { Mercator.new with proj_marker := some idProj }

/-- A built Mercator engine agreeing with `builtMercator` on the central
meridian and false easting/northing but with a different `min_latitude`. -/
def builtMercator2 : Mercator :=
  { Mercator.new with min_latitude := -70, proj_marker := some idProj }

/-- A concrete composed coordinate system: default extents, default built
Mercator, a 640×480 pixel target. -/
def sampleCoord : LatLonCoord Mercator :=
  { lon := none
    lat := none
    x := (-180, 180)
    y := (-80, 84)
    cartesian := Cartesian2d.new ⟨-180, 180⟩ ⟨-80, 84⟩ (⟨0, 640⟩, ⟨0, 480⟩)
    proj := builtMercator }

/-! ## Theorems -/

/-- C8: `Mercator::new` returns an engine with `central_lon = 0`,
`min_latitude = -80`, `max_latitude = 84`, `false_easting = 0`,
`false_northing = 0`, `latitude_true_scale = 0`, and an unset (`none`)
transformer handle. -/
theorem mercator_new_defaults :
    Mercator.new.central_lon = 0 ∧ Mercator.new.min_latitude = -80 ∧
    Mercator.new.max_latitude = 84 ∧ Mercator.new.false_easting = 0 ∧
    Mercator.new.false_northing = 0 ∧
    Mercator.new.latitude_true_scale = 0 ∧
    Mercator.new.proj_marker = none :=
  ⟨rfl, rfl, rfl, rfl, rfl, rfl, rfl⟩

/-- C3: a fresh engine's transformer handle is `none`, and on any engine
whose handle is `none` (build not called), every coordinate operation fails:
`bbox` returns `Err(CoordError::Uninital)` and `map` produces no value
(panic). -/
theorem unbuilt_ops_fail :
    Mercator.new.proj_marker = none ∧
    ∀ (m : Mercator), m.proj_marker = none →
      (∀ xr yr, m.bbox xr yr = .error CoordError.Uninital) ∧
      (∀ v, m.map v = none) := by
  refine ⟨rfl, fun m hm => ⟨fun xr yr => ?_, fun v => ?_⟩⟩ <;>
    simp [Mercator.bbox, Mercator.map, hm]

/-- Witness for C3 at the fresh default engine. -/
theorem unbuilt_ops_fail_witness :
    Mercator.new.bbox none none = .error CoordError.Uninital ∧
    Mercator.new.map (0, 0) = none :=
  ⟨(unbuilt_ops_fail.2 Mercator.new rfl).1 none none,
   (unbuilt_ops_fail.2 Mercator.new rfl).2 (0, 0)⟩

/-- C4: `map` on an unbuilt engine panics (no value, no recoverable error),
unlike `bbox`, which returns the recoverable `Uninital` error; and `map`
also panics (rather than returning an error) when the underlying conversion
of the point fails. -/
theorem map_panic_asymmetry :
    (∀ (m : Mercator), m.proj_marker = none →
      (∀ v, m.map v = none) ∧
      (∀ xr yr, m.bbox xr yr = .error CoordError.Uninital)) ∧
    (∀ (m : Mercator) (t : Proj) (v : Range) (e : ProjError),
      m.proj_marker = some t → t.convert v = .error e → m.map v = none) := by
  constructor
  · intro m hm
    exact ⟨fun v => by simp [Mercator.map, hm], fun xr yr => by simp [Mercator.bbox, hm]⟩
  · intro m t v e hm hc
    simp [Mercator.map, hm, hc]

/-- Witness for C4: the unbuilt default engine, and a built engine whose
transformer rejects every point. -/
theorem map_panic_asymmetry_witness :
    Mercator.new.map (0, 0) = none ∧
    ({ Mercator.new with proj_marker := some failProj } : Mercator).map (0, 0) = none :=
  ⟨(map_panic_asymmetry.1 Mercator.new rfl).1 (0, 0),
   map_panic_asymmetry.2 { Mercator.new with proj_marker := some failProj }
     failProj (0, 0) ⟨"conversion failure"⟩ rfl rfl⟩

/-- C1: on a built engine, `bbox` converts exactly the bottom-left corner
`(lonMin, latMin)` and the top-right corner `(lonMax, latMax)` of the
resolved ranges and returns `((bl.x, rt.x), (bl.y, rt.y))`; if either corner
conversion fails, it returns `CoordError::ProjError` wrapping the engine's
error. -/
theorem bbox_two_corners (m : Mercator) (t : Proj) (xr yr : Option (f64 × f64))
    (hm : m.proj_marker = some t) :
    (∀ bl rt,
      t.convert ((xr.getD (-180, 180)).1, (yr.getD (m.min_latitude, m.max_latitude)).1) = .ok bl →
      t.convert ((xr.getD (-180, 180)).2, (yr.getD (m.min_latitude, m.max_latitude)).2) = .ok rt →
      m.bbox xr yr = .ok ((bl.1, rt.1), (bl.2, rt.2))) ∧
    (∀ e,
      t.convert ((xr.getD (-180, 180)).1, (yr.getD (m.min_latitude, m.max_latitude)).1) = .error e →
      m.bbox xr yr = .error (CoordError.ProjError e)) ∧
    (∀ bl e,
      t.convert ((xr.getD (-180, 180)).1, (yr.getD (m.min_latitude, m.max_latitude)).1) = .ok bl →
      t.convert ((xr.getD (-180, 180)).2, (yr.getD (m.min_latitude, m.max_latitude)).2) = .error e →
      m.bbox xr yr = .error (CoordError.ProjError e)) := by
  refine ⟨fun bl rt h1 h2 => ?_, fun e h1 => ?_, fun bl e h1 h2 => ?_⟩
  · simp [Mercator.bbox, hm, h1, h2]
  · simp [Mercator.bbox, hm, h1]
  · simp [Mercator.bbox, hm, h1, h2]

/-- Witness for C1 at the built default engine with the identity
transformer: the default extent projects to itself. -/
theorem bbox_two_corners_witness :
    builtMercator.bbox none none = .ok (((-180 : ℚ), 180), ((-80 : ℚ), 84)) :=
  (bbox_two_corners builtMercator idProj none none rfl).1
    (-180, -80) (180, 84) rfl rfl

/-- C5: on a built engine, a missing lonRange resolves to `(-180, 180)` and
a missing latRange to `(min_latitude, max_latitude)`; in particular
`bbox none none` equals
`bbox (some (-180, 180)) (some (min_latitude, max_latitude))`. -/
theorem bbox_default_ranges (m : Mercator) (t : Proj) (hm : m.proj_marker = some t) :
    (∀ yr, m.bbox none yr = m.bbox (some (-180, 180)) yr) ∧
    (∀ xr, m.bbox xr none = m.bbox xr (some (m.min_latitude, m.max_latitude))) ∧
    m.bbox none none = m.bbox (some (-180, 180)) (some (m.min_latitude, m.max_latitude)) := by
  refine ⟨fun yr => ?_, fun xr => ?_, ?_⟩ <;> simp [Mercator.bbox, hm]

/-- Witness for C5 at the built default engine. -/
theorem bbox_default_ranges_witness :
    builtMercator.bbox none none =
      builtMercator.bbox (some (-180, 180)) (some (-80, 84)) :=
  (bbox_default_ranges builtMercator idProj rfl).2.2

/-- C2: `translate` is exactly forward projection through the owned
projection's `map` followed by the stored Cartesian pixel mapping, for every
input with no bounds check; in particular whenever the conversion succeeds
the result is the Cartesian image of the projected point, whether or not
the input lies in the original lon/lat ranges. -/
theorem translate_composes (c : LatLonCoord Mercator) (v : Range) :
    LatLonCoord.translate mercatorS c v
      = (Mercator.map c.proj v).map (fun p => c.cartesian.translate p) ∧
    (∀ t p, c.proj.proj_marker = some t → t.convert v = .ok p →
      LatLonCoord.translate mercatorS c v = some (c.cartesian.translate p)) := by
  refine ⟨rfl, fun t p hm hc => ?_⟩
  simp [LatLonCoord.translate, mercatorS, Mercator.map, hm, hc]

/-- Witness for C2: the point `(200°, 90°)` lies outside the default extent
`[-180, 180] × [-80, 84]`, yet `translate` still projects and maps it, to a
pixel outside the 640×480 plot area. -/
theorem translate_composes_witness :
    LatLonCoord.translate mercatorS sampleCoord (200, 90) = some (675, 497) := by
  have h := (translate_composes sampleCoord (200, 90)).2 idProj (200, 90) rfl rfl
  rw [h]
  simp only [sampleCoord, Cartesian2d.new, Cartesian2d.translate]
  norm_num [linmap, Rat.floor]

/-- C6: `LatLonCoord::new` unwraps the projection's `bbox`: any bbox failure
is fatal to the construction (no error value is returned), and on success
the constructor stores the original optional lon/lat ranges unchanged and
builds the Cartesian mapping from the projected x/y ranges onto the supplied
integer pixel ranges. -/
theorem latloncoord_new_spec {T : Type} (S : ProjectionS T) (lon lat : Option Range)
    (actual : SRangeI × SRangeI) (proj : T) :
    (∀ e, S.bbox proj lon lat = .error e →
      LatLonCoord.new S lon lat actual proj = none) ∧
    (∀ b, S.bbox proj lon lat = .ok b →
      LatLonCoord.new S lon lat actual proj =
        some { lon := lon, lat := lat, x := b.1, y := b.2,
               cartesian := Cartesian2d.new ⟨b.1.1, b.1.2⟩ ⟨b.2.1, b.2.2⟩ actual,
               proj := proj }) := by
  refine ⟨fun e h => ?_, fun b h => ?_⟩ <;> simp [LatLonCoord.new, h]

/-- Witness for C6: construction from an unbuilt engine is fatal;
construction from the built default engine yields the sample coordinate
system. -/
theorem latloncoord_new_spec_witness :
    LatLonCoord.new mercatorS none none (⟨0, 640⟩, ⟨0, 480⟩) Mercator.new = none ∧
    LatLonCoord.new mercatorS none none (⟨0, 640⟩, ⟨0, 480⟩) builtMercator = some sampleCoord :=
  ⟨(latloncoord_new_spec mercatorS none none (⟨0, 640⟩, ⟨0, 480⟩) Mercator.new).1
      CoordError.Uninital rfl,
   (latloncoord_new_spec mercatorS none none (⟨0, 640⟩, ⟨0, 480⟩) builtMercator).2
      ((-180, 180), (-80, 84)) rfl⟩

/-- C7: `Mercator::build` passes to the external constructor exactly the
definition string formed by joining the five pairs in the `+key=value`
space-joined convention; for the default engine that string is
`+proj=merc +lon_0=0 +x_0=0 +y_0=0 +units=m`; the latitude bounds and
`latitude_true_scale` do not influence the string. -/
theorem build_uses_proj_string (projNew : String → Option Proj) (m : Mercator) :
    Mercator.build projNew m
      = (projNew (Mercator.buildString m)).map (fun p => { m with proj_marker := some p }) ∧
    Mercator.buildString m
      = "+proj=merc +lon_0=" ++ f64str m.central_lon
        ++ " +x_0=" ++ f64str m.false_easting
        ++ " +y_0=" ++ f64str m.false_northing
        ++ " +units=m" ∧
    Mercator.new.buildString = "+proj=merc +lon_0=0 +x_0=0 +y_0=0 +units=m" ∧
    (∀ a b c : f64,
      Mercator.buildString
        { m with min_latitude := a, max_latitude := b, latitude_true_scale := c }
        = Mercator.buildString m) := by
  refine ⟨?_, ?_, ?_, fun a b c => rfl⟩
  · cases h : projNew (Mercator.buildString m) <;> simp [Mercator.build, h]
  · apply String.ext
    simp only [Mercator.buildString, proj_string, List.map, joinSpace,
      String.data_append, List.append_assoc]
    rfl
  · decide

/-- C9: `Mercator::build` changes only the transformer handle, setting it to
`some`; every configuration field of the built engine equals the
receiver's. -/
theorem build_frame_effect (projNew : String → Option Proj) (m b : Mercator)
    (h : Mercator.build projNew m = some b) :
    b.central_lon = m.central_lon ∧ b.min_latitude = m.min_latitude ∧
    b.max_latitude = m.max_latitude ∧ b.false_easting = m.false_easting ∧
    b.false_northing = m.false_northing ∧
    b.latitude_true_scale = m.latitude_true_scale ∧
    ∃ p, b.proj_marker = some p := by
  unfold Mercator.build at h
  cases hp : projNew (Mercator.buildString m) with
  | none => rw [hp] at h; exact absurd h (by simp)
  | some p =>
    rw [hp] at h
    injection h with h
    subst h
    exact ⟨rfl, rfl, rfl, rfl, rfl, rfl, p, rfl⟩

/-- Witness for C9: building the default engine with a constructor that
returns the identity transformer. -/
theorem build_frame_effect_witness :
    builtMercator.central_lon = Mercator.new.central_lon ∧
    builtMercator.min_latitude = Mercator.new.min_latitude ∧
    builtMercator.max_latitude = Mercator.new.max_latitude ∧
    builtMercator.false_easting = Mercator.new.false_easting ∧
    builtMercator.false_northing = Mercator.new.false_northing ∧
    builtMercator.latitude_true_scale = Mercator.new.latitude_true_scale ∧
    ∃ p, builtMercator.proj_marker = some p :=
  build_frame_effect (fun _ => some idProj) Mercator.new builtMercator rfl

/-- C10: two engines built by the same external constructor, agreeing on
`central_lon`, `false_easting` and `false_northing` but differing in
`min_latitude`, `max_latitude` or `latitude_true_scale`, have identical
`map` behaviour on every input: the definition string omits the latitude
configuration, so both receive the same transformer. -/
theorem map_independent_of_lat_config (projNew : String → Option Proj)
    (m1 m2 b1 b2 : Mercator)
    (hlon : m1.central_lon = m2.central_lon)
    (he : m1.false_easting = m2.false_easting)
    (hn : m1.false_northing = m2.false_northing)
    (hdiff : m1.min_latitude ≠ m2.min_latitude ∨ m1.max_latitude ≠ m2.max_latitude ∨
      m1.latitude_true_scale ≠ m2.latitude_true_scale)
    (h1 : Mercator.build projNew m1 = some b1)
    (h2 : Mercator.build projNew m2 = some b2) :
    ∀ v, b1.map v = b2.map v := by
  have hs : Mercator.buildString m1 = Mercator.buildString m2 := by
    simp only [Mercator.buildString, hlon, he, hn]
  unfold Mercator.build at h1 h2
  rw [hs] at h1
  cases hp : projNew (Mercator.buildString m2) with
  | none =>
    rw [hp] at h1
    exact absurd h1 (by simp)
  | some p =>
    rw [hp] at h1
    rw [hp] at h2
    injection h1 with h1
    injection h2 with h2
    subst h1
    subst h2
    intro v
    rfl

/-- Witness for C10: the default engine and one whose `min_latitude` is
`-70` instead of `-80`, both built with the identity-transformer
constructor, agree at a sample point. -/
theorem map_independent_of_lat_config_witness :
    builtMercator.map (10, 20) = builtMercator2.map (10, 20) :=
  map_independent_of_lat_config (fun _ => some idProj) Mercator.new
    { Mercator.new with min_latitude := -70 } builtMercator builtMercator2
    rfl rfl rfl (Or.inl (by norm_num [Mercator.new])) rfl rfl (10, 20)
